import Mathlib

/-!
Verification of the FSF_GUI converter core: the priority-based level
detector (src/converter/level_detector.py) and the conversion quality
validator (src/converter/quality_validator.py).

The Python code is shallowly embedded: JSON-like Python values become the
inductive `Value`, Python `dict` parameters become association lists,
Python exceptions become `Except PyErr`, Python floats are modelled as
exact rationals (`Rat`), and strings are modelled over their ASCII
fragment (every string occurring in the repository's data paths is ASCII).
-/

/-- Embedded Python value: the JSON-like universe the converter manipulates
(ints, bools, floats, strings, None, lists and string-keyed dicts). -/
inductive Value where
  | int (n : Int)
  | bool (b : Bool)
  | float (q : Rat)
  | str (s : String)
  | none
  | list (xs : List Value)
  | dict (xs : List (String × Value))
deriving Repr

/-- Python exceptions raised by the embedded fragment. -/
inductive PyErr where
  | valueError
  | typeError
  | attributeError
  | keyError
  | zeroDivisionError
deriving DecidableEq, Repr

/-- A Python `dict` with string keys, as used for character records. -/
abbrev PyDict := List (String × Value)

/-- Key lookup in an embedded dict (first binding wins; Python dicts have
unique keys). -/
def dictLookup : PyDict → String → Option Value
  | [], _ => Option.none
  | (k, v) :: rest, key => if k = key then some v else dictLookup rest key

/-- Python `d.get(key, default)` on a dict known to be a dict. -/
def dictLookupD (d : PyDict) (k : String) (dflt : Value) : Value :=
  (dictLookup d k).getD dflt

/-- Python `key in d` on a dict known to be a dict. -/
def dictContains (d : PyDict) (k : String) : Bool :=
  (dictLookup d k).isSome

/-- Numeric view of a value: Python treats ints, bools and floats as
mutually comparable numbers (`True == 1`). -/
def numOfValue : Value → Option Rat
  | .int n => some (n : Rat)
  | .bool b => some (if b then 1 else 0)
  | .float q => some q
  | _ => Option.none

mutual

/-- Recursive core of Python `==` on embedded values: numeric cross-type
equality, strings, `None`, element-wise lists, and key/value dict
equality. -/
def pyEqDeep : Value → Value → Bool
  | .str s, .str t => decide (s = t)
  | .none, .none => true
  | .list xs, .list ys => pyEqList xs ys
  | .dict xs, .dict ys => decide (xs.length = ys.length) && pyEqEntries xs ys
  | a, b =>
    match numOfValue a, numOfValue b with
    | some x, some y => decide (x = y)
    | _, _ => false

/-- Element-wise Python `==` on lists. -/
def pyEqList : List Value → List Value → Bool
  | [], [] => true
  | x :: xs, y :: ys => pyEqDeep x y && pyEqList xs ys
  | _, _ => false

/-- Every entry of the first dict appears in the second with an equal
value (with equal lengths and unique keys this is Python dict equality). -/
def pyEqEntries : List (String × Value) → List (String × Value) → Bool
  | [], _ => true
  | (k, v) :: xs, ys => pyFindEq k v ys && pyEqEntries xs ys

/-- Scan an association list for key `k` and compare the stored value. -/
def pyFindEq : String → Value → List (String × Value) → Bool
  | _, _, [] => false
  | k, v, (k2, w) :: rest => if k = k2 then pyEqDeep v w else pyFindEq k v rest

end

/-- Python `==` on embedded values: one non-recursive dispatch layer over
`pyEqDeep` (scalars are decided directly, containers delegate to the
recursive core). -/
def pyEq (a b : Value) : Bool :=
  match a, b with
  | .str s, .str t => decide (s = t)
  | .none, .none => true
  | .list xs, .list ys => pyEqList xs ys
  | .dict xs, .dict ys => decide (xs.length = ys.length) && pyEqEntries xs ys
  | a, b =>
    match numOfValue a, numOfValue b with
    | some x, some y => decide (x = y)
    | _, _ => false

mutual

/-- Python `<` on embedded values; `Option.none` encodes the `TypeError`
raised on unsupported comparisons (e.g. `str < int`, dicts, `None`). -/
def pyLt : Value → Value → Option Bool
  | .str s, .str t => some (decide (s < t))
  | .list xs, .list ys => pyLtList xs ys
  | a, b =>
    match numOfValue a, numOfValue b with
    | some x, some y => some (decide (x < y))
    | _, _ => Option.none

/-- Python lexicographic `<` on lists (element equality via `pyEq`). -/
def pyLtList : List Value → List Value → Option Bool
  | [], [] => some false
  | [], _ :: _ => some true
  | _ :: _, [] => some false
  | x :: xs, y :: ys => if pyEq x y then pyLtList xs ys else pyLt x y

end


/-- Characters stripped by Python `int(str)` before parsing. -/
def isPySpace (c : Char) : Bool :=
  c = ' ' || c = '\t' || c = '\n' || c = '\r' || c = '\x0b' || c = '\x0c'

mutual

/-- Digits of an integer literal after at least one digit was read;
an underscore must be followed by another digit. -/
def pudAfterDigit (acc : Nat) : List Char → Option Nat
  | [] => some acc
  | c :: rest =>
    if c.isDigit then pudAfterDigit (acc * 10 + (c.toNat - 48)) rest
    else if c = '_' then pudAfterUnderscore acc rest
    else Option.none

/-- State just after a group-separating underscore: a digit must follow. -/
def pudAfterUnderscore (acc : Nat) : List Char → Option Nat
  | [] => Option.none
  | c :: rest =>
    if c.isDigit then pudAfterDigit (acc * 10 + (c.toNat - 48)) rest
    else Option.none

end

/-- Parse a run of ASCII digits with optional single underscores between
digit groups, as accepted by Python `int(str)` after sign and whitespace. -/
def parseUnderscoreDigits : List Char → Option Nat
  | [] => Option.none
  | c :: rest =>
    if c.isDigit then pudAfterDigit (c.toNat - 48) rest else Option.none

/-- Python `int(s)` for an ASCII string: strip whitespace, optional sign,
then an underscore-grouped digit run covering the whole remainder. -/
def pyIntOfString (s : String) : Option Int :=
  let cs := ((s.toList.dropWhile isPySpace).reverse.dropWhile isPySpace).reverse
  match cs with
  | [] => Option.none
  | c :: rest =>
    if c = '-' then (parseUnderscoreDigits rest).map (fun n => -(n : Int))
    else if c = '+' then (parseUnderscoreDigits rest).map (fun n => (n : Int))
    else (parseUnderscoreDigits (c :: rest)).map (fun n => (n : Int))

/-- Truncation of a rational toward zero, as Python `int(float)`. -/
def ratTrunc (q : Rat) : Int := q.num.tdiv (q.den : Int)

/-- Python `int(v)`: ints and bools pass through, floats truncate toward
zero, strings must be integer literals (`ValueError` otherwise), and other
types raise `TypeError`. -/
def pyInt (v : Value) : Except PyErr Int :=
  match v with
  | .int n => .ok n
  | .bool b => .ok (if b then 1 else 0)
  | .float q => .ok (ratTrunc q)
  | .str s =>
    match pyIntOfString s with
    | some n => .ok n
    | Option.none => .error .valueError
  | _ => .error .typeError

/-- Python iteration over a value: lists yield elements, strings yield
one-character strings, dicts yield their keys; other types raise
`TypeError`. -/
def pyIter : Value → Except PyErr (List Value)
  | .list xs => .ok xs
  | .str s => .ok (s.toList.map (fun c => Value.str c.toString))
  | .dict xs => .ok (xs.map (fun p => Value.str p.1))
  | _ => .error .typeError

/-- Python `len(v)`. -/
def pyLen : Value → Except PyErr Int
  | .list xs => .ok xs.length
  | .str s => .ok s.length
  | .dict xs => .ok xs.length
  | _ => .error .typeError

/-- Python truthiness of a value. -/
def pyTruthy : Value → Bool
  | .int n => decide (n ≠ 0)
  | .bool b => b
  | .float q => decide (q ≠ 0)
  | .str s => decide (s ≠ "")
  | .list xs => !xs.isEmpty
  | .dict xs => !xs.isEmpty
  | .none => false

/-- Python `v.get(key, default)`: only dicts have `.get`; every other type
raises `AttributeError`. -/
def pyGet (v : Value) (k : String) (dflt : Value) : Except PyErr Value :=
  match v with
  | .dict xs => .ok (dictLookupD xs k dflt)
  | _ => .error .attributeError

/-- Python `key in v` for a string key: key test on dicts, element test on
lists, substring test on strings, `TypeError` otherwise. -/
def pyContains (v : Value) (k : String) : Except PyErr Bool :=
  match v with
  | .dict xs => .ok (dictContains xs k)
  | .list xs => .ok (xs.any (fun x => pyEq x (.str k)))
  | .str s => .ok (if k = "" then true else decide (2 ≤ (s.splitOn k).length))
  | _ => .error .typeError

/-- Python `v[key]` for a string key: dict lookup (`KeyError` when
missing); any other type raises `TypeError` for a string index. -/
def pySubscript (v : Value) (k : String) : Except PyErr Value :=
  match v with
  | .dict xs =>
    match dictLookup xs k with
    | some w => .ok w
    | Option.none => .error .keyError
  | _ => .error .typeError

/-- Python `v == s` against a string literal (never true off-type). -/
def pyEqStr (v : Value) (s : String) : Bool :=
  match v with
  | .str t => decide (t = s)
  | _ => false

/-- Python `v == n` against an int: numeric values compare numerically,
everything else (strings, None, containers) is unequal. -/
def pyEqInt (v : Value) (n : Int) : Bool :=
  match numOfValue v with
  | some x => decide (x = (n : Rat))
  | Option.none => false

/-- Python `v is None`. -/
def isNoneValue : Value → Bool
  | .none => true
  | _ => false

/-- Round the exact quotient `a / b` (for `b > 0`) to the nearest integer,
ties to even, matching the rounding used by Python float formatting on
exactly representable values. -/
def intRoundHalfEvenDiv (a b : Int) : Int :=
  let k := a.fdiv b
  let r := a - k * b
  if 2 * r < b then k
  else if b < 2 * r then k + 1
  else if k % 2 = 0 then k else k + 1

/-- Left-pad a numeral string with zeros to a given width. -/
def padLeftZeros (s : String) (n : Nat) : String :=
  String.mk (List.replicate (n - s.length) '0') ++ s

/-- Render `n / 10^nd` as a fixed-point numeral with `nd` decimal
places. -/
def fixedDigitsString (n : Int) (nd : Nat) : String :=
  let sign := if n < 0 then "-" else ""
  let a := n.natAbs
  let base := (10 ^ nd : Nat)
  if nd = 0 then sign ++ toString (a / base)
  else sign ++ toString (a / base) ++ "." ++ padLeftZeros (toString (a % base)) nd

/-- Python `format(x, ".<nd>f")`, computed on the numerator/denominator
pair of the exact rational. -/
def formatFixed (q : Rat) (nd : Nat) : String :=
  fixedDigitsString (intRoundHalfEvenDiv (q.num * ((10 ^ nd : Nat) : Int)) (q.den : Int)) nd

/-- Python `"{:.1%}".format(x)`: `x * 100` rendered to one decimal place,
computed on the numerator/denominator pair of the exact rational. -/
def formatPercent (q : Rat) : String :=
  fixedDigitsString (intRoundHalfEvenDiv (q.num * 1000) (q.den : Int)) 1 ++ "%"

/-- Shortest-ish decimal rendering of a float, used by `str(float)`. -/
def pyFloatStr (q : Rat) : String :=
  if q.den = 1 then toString q.num ++ ".0"
  else
    match (List.range 18).find? (fun d => (10 ^ d : Nat) % q.den = 0) with
    | some d => formatFixed q d
    | Option.none => toString q

mutual

/-- Python `repr` of an embedded value (ASCII strings, no escaping). -/
def pyReprVal : Value → String
  | .int n => toString n
  | .bool b => if b then "True" else "False"
  | .str s => "\x27" ++ s ++ "\x27"
  | .none => "None"
  | .float q => pyFloatStr q
  | .list xs => "[" ++ pyReprList xs ++ "]"
  | .dict xs => "\x7b" ++ pyReprEntries xs ++ "\x7d"

/-- Comma-separated `repr` of list elements. -/
def pyReprList : List Value → String
  | [] => ""
  | [x] => pyReprVal x
  | x :: xs => pyReprVal x ++ ", " ++ pyReprList xs

/-- Comma-separated `repr` of dict entries. -/
def pyReprEntries : List (String × Value) → String
  | [] => ""
  | [(k, v)] => "\x27" ++ k ++ "\x27: " ++ pyReprVal v
  | (k, v) :: xs => "\x27" ++ k ++ "\x27: " ++ pyReprVal v ++ ", " ++ pyReprEntries xs

end

/-- Python `str` of an embedded value: strings pass through, everything
else renders as its `repr`. -/
def pyStrVal : Value → String
  | .str s => s
  | v => pyReprVal v

/-! ## Level detector (src/converter/level_detector.py) -/

/-- Clamp a detected level into the valid range, as
`level = max(1, min(20, level))`. -/
def clampLevel (n : Int) : Int := max 1 (min 20 n)

/-- Fold of Python `max` over the generator
`(feature.get('level', 1) for feature in features_by_level)`: each step
extracts the next element's level and keeps the larger value
(`if v > m: m = v`), interleaving extraction and comparison exactly as the
generator is consumed. -/
def featuresMaxFold (m : Value) : List Value → Except PyErr Value
  | [] => .ok m
  | feature :: rest => do
    let v ← pyGet feature "level" (Value.int 1)
    match pyLt m v with
    | some b => featuresMaxFold (if b then v else m) rest
    | Option.none => .error .typeError

/-- Body of the `try` in the featuresByLevel branch:
`max(feature.get('level', 1) for feature in features_by_level)` followed by
`int(max_level)` (`max` raises `ValueError` on the empty sequence). -/
def featuresMaxLevel (features_by_level : Value) : Except PyErr Int := do
  let feats ← pyIter features_by_level
  match feats with
  | [] => throw .valueError
  | first :: rest => do
    let m0 ← pyGet first "level" (Value.int 1)
    let mx ← featuresMaxFold m0 rest
    pyInt mx

/-- Priority 3 of `LevelDetector.detect_level`: calculate the level from
`class.featuresByLevel`, catching `ValueError` and `TypeError` and falling
back to the documented default 1. -/
def detect_level_priority3 (character_data : PyDict) : Except PyErr Int := do
  let class_data := dictLookupD character_data "class" (Value.dict [])
  let features_by_level ← pyGet class_data "featuresByLevel" (Value.list [])
  if pyTruthy features_by_level then
    match featuresMaxLevel features_by_level with
    | .ok n => pure (clampLevel n)
    | .error .valueError => pure 1
    | .error .typeError => pure 1
    | .error e => throw e
  else
    pure 1

/-- Priority 2 of `LevelDetector.detect_level`: the `class.level` field,
with `ValueError`/`TypeError` from `int(...)` caught and control falling
through to priority 3. -/
def detect_level_priority2 (character_data : PyDict) : Except PyErr Int := do
  let class_data := dictLookupD character_data "class" (Value.dict [])
  let has ← pyContains class_data "level"
  if has then
    match (do pyInt (← pySubscript class_data "level") : Except PyErr Int) with
    | .ok n => pure (clampLevel n)
    | .error .valueError => detect_level_priority3 character_data
    | .error .typeError => detect_level_priority3 character_data
    | .error e => throw e
  else
    detect_level_priority3 character_data

/-- `LevelDetector.detect_level`: extract the character level from the
top-level `level` field, then `class.level`, then `class.featuresByLevel`,
clamping the first parsed value into [1, 20] and defaulting to 1. -/
def detect_level (character_data : PyDict) : Except PyErr Int :=
  match dictLookup character_data "level" with
  | some v =>
    match pyInt v with
    | .ok n => .ok (clampLevel n)
    | .error _ => detect_level_priority2 character_data
  | Option.none => detect_level_priority2 character_data

/-- First maximal run of ASCII digits in a character list, as
`re.findall(r'\d+', ...)` followed by taking element 0. -/
def firstDigitRun : List Char → Option (List Char)
  | [] => Option.none
  | c :: cs =>
    if c.isDigit then some (c :: cs.takeWhile Char.isDigit)
    else firstDigitRun cs

/-- Numeric value of a digit run. -/
def digitsToNat (cs : List Char) : Nat :=
  cs.foldl (fun a c => a * 10 + (c.toNat - 48)) 0

/-- `LevelDetector.normalize_level_format`: ints (and bools) pass through,
whole-valued floats truncate, strings yield their first digit run, and
everything else (fractional floats included) normalizes to `None`. -/
def normalize_level_format (level_value : Value) : Option Int :=
  match level_value with
  | .int n => some n
  | .bool b => some (if b then 1 else 0)
  | .float q => if q.den = 1 then some q.num else Option.none
  | .str s =>
    match firstDigitRun s.toList with
    | some cs => some (digitsToNat cs : Int)
    | Option.none => Option.none
  | _ => Option.none

/-- One entry of the `inconsistencies` list of
`LevelDetector.validate_level_consistency`. -/
structure Inconsistency where
  source : String
  level : Int
  difference : Int
deriving DecidableEq, Repr

/-- Result dictionary of `LevelDetector.validate_level_consistency`. -/
structure ConsistencyResult where
  levels_found : List (String × Int)
  unique_levels : List Int
  detected_level : Int
  is_consistent : Bool
  inconsistencies : List Inconsistency
deriving DecidableEq, Repr

/-- The `levels_found` dictionary of
`LevelDetector.validate_level_consistency`: the raw (unclamped) integer
value of each source that parses, keyed by source name. -/
def consistency_sources (character_data : PyDict) : Except PyErr (List (String × Int)) := do
  let fromTop :=
    match dictLookup character_data "level" with
    | some v =>
      match pyInt v with
      | .ok n => [("character.level", n)]
      | .error _ => []
    | Option.none => []
  let class_data := dictLookupD character_data "class" (Value.dict [])
  let hasClassLevel ← pyContains class_data "level"
  let fromClass ←
    if hasClassLevel then
      match (do pyInt (← pySubscript class_data "level") : Except PyErr Int) with
      | .ok n => pure [("class.level", n)]
      | .error .valueError => pure []
      | .error .typeError => pure []
      | .error e => throw e
    else
      pure ([] : List (String × Int))
  let features_by_level ← pyGet class_data "featuresByLevel" (Value.list [])
  let fromFeatures ←
    if pyTruthy features_by_level then
      match featuresMaxLevel features_by_level with
      | .ok n => pure [("featuresByLevel", n)]
      | .error .valueError => pure []
      | .error .typeError => pure []
      | .error e => throw e
    else
      pure ([] : List (String × Int))
  pure (fromTop ++ fromClass ++ fromFeatures)

/-- `LevelDetector.validate_level_consistency`: collect raw values from
all sources, compare the set of distinct values, reuse `detect_level` as
the canonical value, and list disagreeing sources with signed
differences. -/
def validate_level_consistency (character_data : PyDict) : Except PyErr ConsistencyResult := do
  let levels_found ← consistency_sources character_data
  let unique_levels := (levels_found.map Prod.snd).dedup
  let detected_level ← detect_level character_data
  let is_consistent := decide (unique_levels.length ≤ 1)
  let inconsistencies :=
    if is_consistent then []
    else
      (levels_found.filter (fun p => p.2 ≠ detected_level)).map
        (fun p => Inconsistency.mk p.1 p.2 (p.2 - detected_level))
  pure (ConsistencyResult.mk levels_found unique_levels detected_level is_consistent inconsistencies)

/-- The `validation_result` dictionary re-embedded as a Python value, as
stored in the `details` payload of findings. -/
def consistencyToValue (r : ConsistencyResult) : Value :=
  .dict
    [("levels_found", .dict (r.levels_found.map (fun p => (p.1, Value.int p.2)))),
     ("unique_levels", .list (r.unique_levels.map Value.int)),
     ("detected_level", .int r.detected_level),
     ("is_consistent", .bool r.is_consistent),
     ("inconsistencies",
      .list (r.inconsistencies.map
        (fun i => Value.dict
          [("source", .str i.source), ("level", .int i.level),
           ("difference", .int i.difference)])))]

/-! ## Quality validator (src/converter/quality_validator.py) -/

/-- The `ValidationResult` dataclass: one graded finding. -/
structure ValidationResult where
  is_valid : Bool
  message : String
  severity : String := "warning"
  details : Option Value := Option.none
deriving Repr

/-- The `QualityMetrics` dataclass: aggregate counters plus the findings
of one validation run. -/
structure QualityMetrics where
  total_items : Nat
  successful_conversions : Nat
  failed_conversions : Nat
  items_with_warnings : Nat
  processing_time : Rat
  issues_found : List ValidationResult
deriving Repr

/-- Modelled from the spec: outcome shape of the external
`AbilityConverter.validate_ability_conversion` comparator
(`compareAbilities(sourceAbilities, convertedAbilities, level) →
{is_valid, expected_count, converted_count}`); the module
`converter/ability_converter.py` is not part of the repository snapshot. -/
structure AbilityValidationOutcome where
  is_valid : Bool
  expected_count : Int
  converted_count : Int

/-- Modelled from the spec: outcome shape of the external
`DescriptionTransfer.audit_description_transfers` auditor
(`auditTransfers(sourceSections, convertedItems) →
{failed_transfers: int, empty_descriptions: int}`); the module
`converter/description_transfer.py` is not part of the repository
snapshot. -/
structure DescriptionAudit where
  failed_transfers : Nat
  empty_descriptions : Nat

/-- Modelled from the spec: the three opaque external collaborators the
validator consumes (ability comparator, description auditor, and the
text-normalizer round-trip safety check `roundTripsSafely(text) → bool`);
their modules are not part of the repository snapshot, so the validator is
parameterized over their behavior. -/
structure Collaborators where
  validate_ability_conversion : Value → List Value → Int → AbilityValidationOutcome
  audit_description_transfers : List Value → List Value → DescriptionAudit
  validate_json_roundtrip : Value → Bool

/-- The ability-validation outcome re-embedded as a Python dict for the
`details` payload. -/
def abilityOutcomeToValue (v : AbilityValidationOutcome) : Value :=
  .dict
    [("is_valid", .bool v.is_valid),
     ("expected_count", .int v.expected_count),
     ("converted_count", .int v.converted_count)]

/-- The description audit re-embedded as a Python dict for the `details`
payload. -/
def descriptionAuditToValue (a : DescriptionAudit) : Value :=
  .dict
    [("failed_transfers", .int a.failed_transfers),
     ("empty_descriptions", .int a.empty_descriptions)]

/-- Order-preserving effectful filter, as a Python list comprehension with
a possibly raising predicate. -/
def listFilterE (p : Value → Except PyErr Bool) : List Value → Except PyErr (List Value)
  | [] => .ok []
  | x :: xs => do
    let b ← p x
    let rest ← listFilterE p xs
    pure (if b then x :: rest else rest)

/-- The fields of the fixed `required_fields` list that are missing from
the system section (`[field for field in required_fields if field not in
system_data]`). -/
def missingSystemFields (system_data : Value) : List String → Except PyErr (List String)
  | [] => .ok []
  | f :: rest => do
    let b ← pyContains system_data f
    let others ← missingSystemFields system_data rest
    pure (if b then others else f :: others)

/-- `QualityValidator._validate_basic_structure`: append error findings
for a missing name, a non-hero type, a missing system section, and missing
required system fields. -/
def validate_basic_structure (original converted : PyDict)
    (results : List ValidationResult) : Except PyErr (List ValidationResult) := do
  let r1 :=
    if !pyTruthy (dictLookupD converted "name" Value.none) then
      results ++ [ValidationResult.mk false "Character missing name" "error"
        (some (.dict [("original_name", dictLookupD original "name" Value.none)]))]
    else results
  let r2 :=
    if !pyEqStr (dictLookupD converted "type" Value.none) "hero" then
      r1 ++ [ValidationResult.mk false "Character type is not \x27hero\x27" "error"
        (some (.dict [("actual_type", dictLookupD converted "type" Value.none)]))]
    else r1
  let r3 :=
    if !dictContains converted "system" then
      r2 ++ [ValidationResult.mk false "Character missing system data" "error" Option.none]
    else r2
  let system_data := dictLookupD converted "system" (Value.dict [])
  let missing ← missingSystemFields system_data
    ["stamina", "characteristics", "combat", "hero"]
  let r4 :=
    if missing ≠ [] then
      r3 ++ [ValidationResult.mk false
        ("Missing required system fields: " ++ String.intercalate ", " missing) "error"
        (some (.dict [("missing_fields", .list (missing.map Value.str))]))]
    else r3
  pure r4

/-- The level carried by the converted record's first class-type item
(`class_items[0].get("system", {}).get("level")`), `None` when the record
has no class item. -/
def converted_class_level (converted : PyDict) : Except PyErr Value := do
  let items ← pyIter (dictLookupD converted "items" (Value.list []))
  let class_items ← listFilterE
    (fun item => do pure (pyEqStr (← pyGet item "type" Value.none) "class")) items
  match class_items with
  | [] => pure Value.none
  | item :: _ => do
    let sys ← pyGet item "system" (Value.dict [])
    pyGet sys "level" Value.none

/-- `QualityValidator._validate_level_detection`: detected-vs-converted
level mismatch is an error; source inconsistency with a matching converted
level is a warning that still counts as valid; otherwise info. -/
def validate_level_detection (original converted : PyDict) :
    Except PyErr ValidationResult := do
  let detected_level ← detect_level original
  let validation ← validate_level_consistency original
  let converted_level ← converted_class_level converted
  if pyEqInt converted_level detected_level = false then
    pure (ValidationResult.mk false
      ("Level mismatch: detected " ++ toString detected_level ++ ", converted "
        ++ pyStrVal converted_level) "error"
      (some (.dict
        [("detected_level", .int detected_level),
         ("converted_level", converted_level),
         ("sources_consistent", .bool validation.is_consistent)])))
  else if validation.is_consistent = false then
    pure (ValidationResult.mk true
      "Level sources inconsistent but conversion successful" "warning"
      (some (consistencyToValue validation)))
  else
    pure (ValidationResult.mk true
      ("Level detection successful: " ++ toString detected_level) "info" Option.none)

/-- `QualityValidator._validate_ability_conversion`: fold the external
comparator's verdict into local counters, appending an error finding on an
incomplete conversion. -/
def validate_ability_conversion (c : Collaborators)
    (original converted compendium_items : PyDict)
    (results : List ValidationResult) :
    Except PyErr (QualityMetrics × List ValidationResult) := do
  let character_level ← detect_level original
  let all_abilities ← pyGet (dictLookupD original "class" (Value.dict []))
    "abilities" (Value.list [])
  let items ← pyIter (dictLookupD converted "items" (Value.list []))
  let converted_abilities ← listFilterE
    (fun item => do pure (pyEqStr (← pyGet item "type" Value.none) "ability")) items
  let validation := c.validate_ability_conversion all_abilities converted_abilities
    character_level
  let successful : Nat := if validation.is_valid then 1 else 0
  let failed : Nat := if validation.is_valid then 0 else 1
  let results2 :=
    if validation.is_valid = false then
      results ++ [ValidationResult.mk false
        ("Ability conversion incomplete: " ++ toString validation.converted_count
          ++ "/" ++ toString validation.expected_count) "error"
        (some (abilityOutcomeToValue validation))]
    else results
  pure (QualityMetrics.mk 1 successful failed 0 0 [], results2)

/-- `QualityValidator._validate_description_transfers`: run the external
audit over the ancestry/culture/career/class sections and the converted
items; failed transfers are an error finding, empty descriptions a warning
finding that still counts as valid. -/
def validate_description_transfers (c : Collaborators)
    (original converted : PyDict) (results : List ValidationResult) :
    Except PyErr (QualityMetrics × List ValidationResult) := do
  let source_items :=
    (["ancestry", "culture", "career", "class"].filterMap
      (fun sectionKey => dictLookup original sectionKey))
  let converted_items ← pyIter (dictLookupD converted "items" (Value.list []))
  let audit := c.audit_description_transfers source_items converted_items
  let r1 :=
    if audit.failed_transfers > 0 then
      results ++ [ValidationResult.mk false
        ("Description transfer failures: " ++ toString audit.failed_transfers)
        "error" (some (descriptionAuditToValue audit))]
    else results
  let r2 :=
    if audit.empty_descriptions > 0 then
      r1 ++ [ValidationResult.mk true
        ("Empty descriptions: " ++ toString audit.empty_descriptions) "warning"
        (some (.dict [("empty_count", .int audit.empty_descriptions)]))]
    else r1
  pure (QualityMetrics.mk 1 (if audit.failed_transfers = 0 then 1 else 0)
    audit.failed_transfers (if audit.empty_descriptions > 0 then 1 else 0) 0 [],
    r2)

/-- Accumulate the encoding issues of one converted item, as the loop body
of `_validate_text_encoding`. -/
def textEncodingIssuesStep (c : Collaborators) (acc : List String) (item : Value) :
    Except PyErr (List String) := do
  let item_name ← pyGet item "name" (Value.str "")
  let sys ← pyGet item "system" (Value.dict [])
  let desc ← pyGet sys "description" (Value.dict [])
  let item_description ← pyGet desc "value" (Value.str "")
  let acc1 :=
    if pyTruthy item_name && !c.validate_json_roundtrip item_name then
      acc ++ ["Item \x27" ++ pyStrVal item_name ++ "\x27 name"]
    else acc
  let acc2 :=
    if pyTruthy item_description && !c.validate_json_roundtrip item_description then
      acc1 ++ ["Item \x27" ++ pyStrVal item_name ++ "\x27 description"]
    else acc1
  pure acc2

/-- `QualityValidator._validate_text_encoding`: the character name and all
item names/descriptions must survive the JSON round-trip check; any
failure is a single error finding. -/
def validate_text_encoding (c : Collaborators) (converted : PyDict) :
    Except PyErr ValidationResult := do
  let name := dictLookupD converted "name" (Value.str "")
  if !c.validate_json_roundtrip name then
    pure (ValidationResult.mk false "Character name is not JSON-safe" "error"
      (some (.dict [("name", name)])))
  else do
    let items ← pyIter (dictLookupD converted "items" (Value.list []))
    let encoding_issues ← items.foldlM (textEncodingIssuesStep c) []
    if encoding_issues ≠ [] then
      pure (ValidationResult.mk false
        ("Text encoding issues found: " ++ toString encoding_issues.length ++ " items")
        "error" (some (.dict [("encoding_issues", .list (encoding_issues.map Value.str))])))
    else
      pure (ValidationResult.mk true "All text encoding is valid" "info" Option.none)

/-- The `has_compendium_source` test of `_validate_compendium_mappings`:
an item counts as mapped iff it has a non-`None` `_stats.compendiumSource`
or an `img` other than the default mystery-man icon (with Python
left-to-right short-circuit evaluation). -/
def has_compendium_source (item : Value) : Except PyErr Bool := do
  let hasStats ← pyContains item "_stats"
  let viaStats ←
    if hasStats then do
      let stats ← pySubscript item "_stats"
      let src ← pyGet stats "compendiumSource" Value.none
      pure (!isNoneValue src)
    else
      pure false
  if viaStats then
    pure true
  else do
    let hasImg ← pyContains item "img"
    if hasImg then do
      let img ← pySubscript item "img"
      pure (!pyEqStr img "icons/svg/mystery-man.svg")
    else
      pure false

/-- The counting loop of `_validate_compendium_mappings`: total item
count, mapped item count, and the names of unmapped items in order. -/
def compendium_mapping_stats (converted : PyDict) :
    Except PyErr (Int × Nat × List Value) := do
  let items := dictLookupD converted "items" (Value.list [])
  let total_items ← pyLen items
  let itemList ← pyIter items
  let counts ← itemList.foldlM
    (fun (acc : Nat × List Value) item => do
      let mapped ← has_compendium_source item
      if mapped then
        pure (acc.1 + 1, acc.2)
      else do
        let nm ← pyGet item "name" (Value.str "Unnamed item")
        pure (acc.1, acc.2 ++ [nm]))
    ((0 : Nat), ([] : List Value))
  pure (total_items, counts.1, counts.2)

/-- The comparison `mapping_rate < 0.5` of `_validate_compendium_mappings`
carried out on the integer pair: for a positive total it is
`mapped / total < 1 / 2`, and with no items the rate is 0, which is below
0.5. -/
def mappingRateLtHalf (mapped : Nat) (total : Int) : Bool :=
  if 0 < total then decide (2 * (mapped : Int) < total) else true

/-- `QualityValidator._validate_compendium_mappings`: compute the
mapped/total ratio (0 when there are no items), classify a ratio below 0.5
as a warning that still counts as valid and anything else as info. -/
def validate_compendium_mappings (converted compendium_items : PyDict) :
    Except PyErr ValidationResult := do
  let stats ← compendium_mapping_stats converted
  let total_items := stats.1
  let mapped_items := stats.2.1
  let unmapped_items := stats.2.2
  let mapping_rate : Rat :=
    if total_items > 0 then (mapped_items : Rat) / (total_items : Rat) else 0
  if mappingRateLtHalf mapped_items total_items then
    pure (ValidationResult.mk true
      ("Low compendium mapping rate: " ++ formatPercent mapping_rate) "warning"
      (some (.dict
        [("mapping_rate", .float mapping_rate),
         ("mapped_items", .int mapped_items),
         ("total_items", .int total_items),
         ("unmapped_items", .list (unmapped_items.take 5))])))
  else
    pure (ValidationResult.mk true
      ("Good compendium mapping rate: " ++ formatPercent mapping_rate) "info"
      (some (.dict [("mapping_rate", .float mapping_rate)])))

/-- The final warning tally of `validate_character_conversion`:
`sum(1 for result in self.validation_results if result.severity ==
"warning")`. -/
def countWarnings (results : List ValidationResult) : Nat :=
  (results.filter (fun r => r.severity = "warning")).length

/-- `QualityValidator.validate_character_conversion`: run the six
sub-checks in order against the accumulated findings sequence
(`results0` is `self.validation_results` at entry, `processing_time`
the run's elapsed time) and aggregate the counters; returns the metrics
together with the final findings sequence. -/
def validate_character_conversion (c : Collaborators) (processing_time : Rat)
    (results0 : List ValidationResult)
    (original_data converted_data compendium_items : PyDict) :
    Except PyErr (QualityMetrics × List ValidationResult) := do
  let results1 ← validate_basic_structure original_data converted_data results0
  let level_validation ← validate_level_detection original_data converted_data
  let abilityOut ← validate_ability_conversion c original_data converted_data
    compendium_items results1
  let ability_metrics := abilityOut.1
  let results2 := abilityOut.2
  let descOut ← validate_description_transfers c original_data converted_data results2
  let description_metrics := descOut.1
  let results3 := descOut.2
  let encoding_validation ← validate_text_encoding c converted_data
  let mapping_validation ← validate_compendium_mappings converted_data compendium_items
  let total_items := 1 + 1 + ability_metrics.total_items
    + description_metrics.total_items + 1 + 1
  let successful_conversions :=
    (if level_validation.is_valid then 1 else 0)
    + ability_metrics.successful_conversions
    + description_metrics.successful_conversions
    + (if encoding_validation.is_valid then 1 else 0)
    + (if mapping_validation.is_valid then 1 else 0)
  let failed_conversions :=
    (if level_validation.is_valid then 0 else 1)
    + ability_metrics.failed_conversions
    + description_metrics.failed_conversions
    + (if encoding_validation.is_valid then 0 else 1)
  let items_with_warnings :=
    (if mapping_validation.is_valid then 0 else 1) + countWarnings results3
  pure (QualityMetrics.mk total_items successful_conversions failed_conversions
    items_with_warnings processing_time results3, results3)

/-- The success rate of `generate_quality_report`: `successful / total`,
with a zero total giving rate 0 instead of a division error. -/
def report_success_rate (metrics : QualityMetrics) : Rat :=
  if metrics.total_items > 0 then
    (metrics.successful_conversions : Rat) / (metrics.total_items : Rat)
  else 0

/-- The final assessment branch of `generate_quality_report`: all
conversions successful picks "Excellent" (no warnings) or "Good"
(warnings present); otherwise the failure rate `failed / total` (a
`ZeroDivisionError` when total is 0, the ratio comparison carried out on
the integer pair) picks "Fair" below 0.1 and "Poor" at or above it. -/
def overall_assessment_line (metrics : QualityMetrics) : Except PyErr String :=
  if metrics.failed_conversions = 0 then
    if metrics.items_with_warnings = 0 then
      pure "✅ Excellent: All conversions successful with no warnings"
    else
      pure "✅ Good: All conversions successful with some warnings"
  else
    if metrics.total_items = 0 then
      throw .zeroDivisionError
    else
      if 10 * metrics.failed_conversions < metrics.total_items then
        pure "⚠️ Fair: Most conversions successful, some issues detected"
      else
        pure "❌ Poor: Significant conversion issues detected"

/-- `QualityValidator.generate_quality_report`, as its list of report
lines before the final newline join: header, success rate, capped issue
listings, and the categorical overall assessment. -/
def generate_quality_report_lines (metrics : QualityMetrics) :
    Except PyErr (List String) := do
  let header :=
    ["=== Conversion Quality Report ===",
     "Processing time: " ++ formatFixed metrics.processing_time 2 ++ " seconds",
     "Total validation items: " ++ toString metrics.total_items,
     "Successful conversions: " ++ toString metrics.successful_conversions,
     "Failed conversions: " ++ toString metrics.failed_conversions,
     "Items with warnings: " ++ toString metrics.items_with_warnings,
     ""]
  let withRate := header ++
    ["Overall success rate: " ++ formatPercent (report_success_rate metrics)]
  let errors := metrics.issues_found.filter (fun issue => issue.severity = "error")
  let warnings := metrics.issues_found.filter (fun issue => issue.severity = "warning")
  let issuesSection :=
    if metrics.issues_found.isEmpty then []
    else
      ["", "=== Issues Found ===",
       "Total issues: " ++ toString metrics.issues_found.length]
      ++ (if errors.isEmpty then []
          else ["", "Errors (" ++ toString errors.length ++ "):"]
            ++ (errors.take 5).map (fun e => "  - " ++ e.message))
      ++ (if warnings.isEmpty then []
          else ["", "Warnings (" ++ toString warnings.length ++ "):"]
            ++ (warnings.take 5).map (fun w => "  - " ++ w.message))
  let beforeVerdict := withRate ++ issuesSection ++ ["", "=== Overall Assessment ==="]
  let assessment ← overall_assessment_line metrics
  pure (beforeVerdict ++ [assessment])

/-- `QualityValidator.generate_quality_report`: the joined report text. -/
def generate_quality_report (metrics : QualityMetrics) : Except PyErr String := do
  let report_lines ← generate_quality_report_lines metrics
  pure (String.intercalate "\n" report_lines)

/-! ## Concrete records used as test inputs -/

/-- Modelled from the spec: collaborators that always succeed (a complete
ability conversion, a clean description audit, and a text normalizer for
which every string round-trips). -/
def trivialCollaborators : Collaborators where
  validate_ability_conversion := fun _ _ _ => AbilityValidationOutcome.mk true 0 0
  audit_description_transfers := fun _ _ => DescriptionAudit.mk 0 0
  validate_json_roundtrip := fun _ => true

/-- An original record whose level sources disagree: the top-level field
says 3 while `class.level` says 5. -/
def originalInconsistent : PyDict :=
  [("level", Value.int 3), ("class", Value.dict [("level", Value.int 5)])]

/-- A structurally complete converted record whose class item carries
level 3 (matching detection on `originalInconsistent`) and whose single
item has neither compendium provenance nor a custom icon. -/
def convertedMatching : PyDict :=
  [("name", Value.str "A"),
   ("type", Value.str "hero"),
   ("system", Value.dict
     [("stamina", Value.dict []), ("characteristics", Value.dict []),
      ("combat", Value.dict []), ("hero", Value.dict [])]),
   ("items", Value.list
     [Value.dict
       [("type", Value.str "class"), ("name", Value.str "C"),
        ("system", Value.dict [("level", Value.int 3)])]])]

/-- An original record with a single consistent level source. -/
def originalConsistent : PyDict := [("level", Value.int 3)]

/-- A converted record whose class item carries level 4, mismatching the
level detected on `originalConsistent`. -/
def convertedMismatching : PyDict :=
  [("items", Value.list
    [Value.dict
      [("type", Value.str "class"),
       ("system", Value.dict [("level", Value.int 4)])]])]

/-- A converted record with two items of which exactly one is mapped (a
custom icon), for the 0.5 mapping-rate boundary. -/
def convertedHalfMapped : PyDict :=
  [("items", Value.list
    [Value.dict [("name", Value.str "a"), ("img", Value.str "icons/custom.png")],
     Value.dict [("name", Value.str "b")]])]

/-- A converted record with three items of which one is mapped (via
compendium provenance), for a mapping rate below 0.5. -/
def convertedThirdMapped : PyDict :=
  [("items", Value.list
    [Value.dict [("name", Value.str "a"),
      ("_stats", Value.dict [("compendiumSource", Value.str "pack.x")])],
     Value.dict [("name", Value.str "b")],
     Value.dict [("name", Value.str "c")]])]

/-- Whether a value is an embedded dict. -/
def isDictB : Value → Bool
  | .dict _ => true
  | _ => false

/-- Well-formedness of a character record for level detection: when a
`class` field is present it is a dict, and when that dict carries a
`featuresByLevel` field it is a list of dicts. On such records every
exception of the detection chain is caught. -/
def recordWF (d : PyDict) : Bool :=
  match dictLookup d "class" with
  | some (Value.dict cd) =>
    (match dictLookup cd "featuresByLevel" with
     | some (Value.list xs) => xs.all isDictB
     | some _ => false
     | Option.none => true)
  | some _ => false
  | Option.none => true

/-! ## Helper lemmas -/

/-- The clamp `max(1, min(20, level))` lands at or above 1. -/
theorem clampLevel_one_le (n : Int) : 1 ≤ clampLevel n := le_max_left 1 _

/-- The clamp `max(1, min(20, level))` lands at or below 20. -/
theorem clampLevel_le_twenty (n : Int) : clampLevel n ≤ 20 :=
  max_le (by norm_num) (min_le_left _ _)

/-- `int(v)` either succeeds or raises exactly `ValueError` or
`TypeError` (the two exceptions every parse site catches). -/
theorem pyInt_cases (v : Value) :
    (∃ n, pyInt v = Except.ok n) ∨ pyInt v = Except.error PyErr.valueError
      ∨ pyInt v = Except.error PyErr.typeError := by
  rcases v with n | b | q | s | _ | xs | xs <;> simp [pyInt]
  rcases h : pyIntOfString s with _ | n <;> simp [h]

/-! ## Claim theorems -/

/-- C2: `detect_level` tries its sources in the fixed order top-level
`level`, then `class.level`, then `class.featuresByLevel`; the first
source that parses wins, and the featuresByLevel source uses the maximum
per-element `level` (defaulting to 1 when absent). -/
theorem C2_detect_level_priority :
    (∀ (d : PyDict) (v : Value) (n : Int), dictLookup d "level" = some v →
      pyInt v = Except.ok n → detect_level d = Except.ok (clampLevel n))
    ∧ detect_level [("level", Value.int 10), ("class", Value.dict [("level", Value.int 1)])]
        = Except.ok 10
    ∧ (∀ (d : PyDict) (cd : PyDict) (w : Value) (m : Int),
        (dictLookup d "level" = Option.none ∨
          ∃ v e, dictLookup d "level" = some v ∧ pyInt v = Except.error e) →
        dictLookup d "class" = some (Value.dict cd) →
        dictLookup cd "level" = some w →
        pyInt w = Except.ok m →
        detect_level d = Except.ok (clampLevel m))
    ∧ detect_level [("class", Value.dict
        [("level", Value.int 6),
         ("featuresByLevel", Value.list [Value.dict [("level", Value.int 10)]])])]
        = Except.ok 6
    ∧ detect_level [("class", Value.dict
        [("featuresByLevel", Value.list
          [Value.dict [("level", Value.int 1)], Value.dict [("level", Value.int 2)],
           Value.dict [("level", Value.int 10)]])])]
        = Except.ok 10
    ∧ detect_level [("class", Value.dict
        [("featuresByLevel", Value.list
          [Value.dict [], Value.dict [("level", Value.int 2)]])])]
        = Except.ok 2 := by
  refine ⟨?_, rfl, ?_, rfl, rfl, rfl⟩
  · intro d v n hl hn
    simp [detect_level, hl, hn]
  · intro d cd w m htop hc hw hm
    have h2 : detect_level d = detect_level_priority2 d := by
      rcases htop with h | ⟨v, e, hv, he⟩
      · simp [detect_level, h]
      · simp [detect_level, hv, he]
    rw [h2]
    simp [detect_level_priority2, dictLookupD, hc, pyContains, dictContains, hw,
      pySubscript, hm, Bind.bind, Except.bind, Pure.pure, Except.pure]

/-- C2 witness: the priority clause instantiated at a concrete record. -/
theorem C2_witness :
    dictLookup [("level", Value.int 10)] "level" = some (Value.int 10)
    ∧ pyInt (Value.int 10) = Except.ok 10
    ∧ detect_level [("level", Value.int 10)] = Except.ok (clampLevel 10) :=
  ⟨rfl, rfl, C2_detect_level_priority.1 [("level", Value.int 10)] (Value.int 10) 10 rfl rfl⟩

/-- C3 counterexample: a top-level value "5th level" does not parse and is
not used — `detect_level` falls through and returns the default 1, not 5
as the claim asserts. -/
theorem C3_counterexample :
    detect_level [("level", Value.str "5th level")] = Except.ok 1
    ∧ detect_level [("level", Value.str "5th level")] ≠ Except.ok 5 := by
  have hval : detect_level [("level", Value.str "5th level")] = Except.ok 1 := rfl
  refine ⟨hval, ?_⟩
  rw [hval]
  simp

/-- C3 (amended): `detect_level` parses raw values with Python `int()`,
which accepts numeric values and strings that are entirely an integer
literal (optionally signed and whitespace-padded); strings with trailing
text such as "5th level" or "Lvl 5" raise `ValueError`, upon which the
detector falls through to the next source without raising. -/
theorem C3_detect_level_parsing :
    pyInt (Value.str " 5 ") = Except.ok 5
    ∧ pyInt (Value.str "5th level") = Except.error PyErr.valueError
    ∧ pyInt (Value.str "Lvl 5") = Except.error PyErr.valueError
    ∧ pyInt (Value.float (mkRat 51 10)) = Except.ok 5
    ∧ (∀ (d : PyDict) (v : Value) (e : PyErr), dictLookup d "level" = some v →
        pyInt v = Except.error e → detect_level d = detect_level_priority2 d)
    ∧ detect_level [("level", Value.str "5th level"),
        ("class", Value.dict [("level", Value.int 3)])] = Except.ok 3 := by
  refine ⟨rfl, rfl, rfl, rfl, ?_, rfl⟩
  intro d v e hv he
  simp [detect_level, hv, he]

/-- C3 witness: the fall-through clause instantiated at a concrete
record. -/
theorem C3_witness :
    dictLookup [("level", Value.str "Lvl 5")] "level" = some (Value.str "Lvl 5")
    ∧ pyInt (Value.str "Lvl 5") = Except.error PyErr.valueError
    ∧ detect_level [("level", Value.str "Lvl 5")]
        = detect_level_priority2 [("level", Value.str "Lvl 5")] :=
  ⟨rfl, rfl, C3_detect_level_parsing.2.2.2.2.1 [("level", Value.str "Lvl 5")]
    (Value.str "Lvl 5") PyErr.valueError rfl rfl⟩

/-- C7: `normalize_level_format` extracts the first digit run of a string
("Lvl 5" gives 5), truncates whole-valued floats (5.0 gives 5), rejects
fractional floats (5.5 gives None), passes integers through, and never
clamps — the out-of-range integer 100 is returned unchanged. -/
theorem C7_normalize_level_format :
    normalize_level_format (Value.str "Lvl 5") = some 5
    ∧ normalize_level_format (Value.float 5) = some 5
    ∧ normalize_level_format (Value.float (mkRat 11 2)) = Option.none
    ∧ normalize_level_format (Value.int 5) = some 5
    ∧ (∀ n : Int, normalize_level_format (Value.int n) = some n)
    ∧ normalize_level_format (Value.int 100) = some 100 :=
  ⟨rfl, rfl, rfl, rfl, fun _ => rfl, rfl⟩

/-- C7 witness: the no-clamping clause instantiated at 100. -/
theorem C7_witness : normalize_level_format (Value.int 100) = some 100 :=
  C7_normalize_level_format.2.2.2.2.1 100

/-- C10: on the fractional float 5.7 the two normalization paths diverge —
`detect_level` truncates it toward zero and uses the source (returning 5),
while `normalize_level_format` rejects it and returns None. -/
theorem C10_fractional_float_divergence :
    detect_level [("level", Value.float (mkRat 57 10))] = Except.ok 5
    ∧ normalize_level_format (Value.float (mkRat 57 10)) = Option.none :=
  ⟨rfl, rfl⟩

/-- Over a list of dicts, the `max` fold either succeeds or raises
`TypeError` from an unsupported comparison. -/
theorem featuresMaxFold_cases (xs : List Value) (h : xs.all isDictB = true) :
    ∀ m : Value, (∃ v, featuresMaxFold m xs = Except.ok v)
      ∨ featuresMaxFold m xs = Except.error PyErr.typeError := by
  induction xs with
  | nil => exact fun m => Or.inl ⟨m, rfl⟩
  | cons x xs ih =>
    rw [List.all_cons, Bool.and_eq_true] at h
    obtain ⟨hx, hxs⟩ := h
    intro m
    rcases x with _ | _ | _ | _ | _ | _ | xd <;> simp [isDictB] at hx
    rcases hlt : pyLt m (dictLookupD xd "level" (Value.int 1)) with _ | b
    · exact Or.inr (by simp [featuresMaxFold, pyGet, Bind.bind, Except.bind, hlt])
    · rcases ih hxs (if b then dictLookupD xd "level" (Value.int 1) else m) with ⟨v, hv⟩ | he
      · exact Or.inl ⟨v, by simp [featuresMaxFold, pyGet, Bind.bind, Except.bind, hlt, hv]⟩
      · exact Or.inr (by simp [featuresMaxFold, pyGet, Bind.bind, Except.bind, hlt, he])

/-- Over a list of dicts, the featuresByLevel computation either succeeds
or raises one of the two caught exceptions. -/
theorem featuresMaxLevel_cases (xs : List Value) (h : xs.all isDictB = true) :
    (∃ n, featuresMaxLevel (Value.list xs) = Except.ok n)
    ∨ featuresMaxLevel (Value.list xs) = Except.error PyErr.valueError
    ∨ featuresMaxLevel (Value.list xs) = Except.error PyErr.typeError := by
  cases xs with
  | nil => exact Or.inr (Or.inl rfl)
  | cons x rest =>
    rw [List.all_cons, Bool.and_eq_true] at h
    obtain ⟨hx, hrest⟩ := h
    rcases x with _ | _ | _ | _ | _ | _ | xd <;> simp [isDictB] at hx
    rcases featuresMaxFold_cases rest hrest (dictLookupD xd "level" (Value.int 1)) with
      ⟨v, hv⟩ | he
    · rcases pyInt_cases v with ⟨n, hn⟩ | hn | hn
      · exact Or.inl ⟨n, by
          simp [featuresMaxLevel, pyIter, pyGet, Bind.bind, Except.bind, hv, hn]⟩
      · exact Or.inr (Or.inl (by
          simp [featuresMaxLevel, pyIter, pyGet, Bind.bind, Except.bind, hv, hn]))
      · exact Or.inr (Or.inr (by
          simp [featuresMaxLevel, pyIter, pyGet, Bind.bind, Except.bind, hv, hn]))
    · exact Or.inr (Or.inr (by
        simp [featuresMaxLevel, pyIter, pyGet, Bind.bind, Except.bind, he]))

/-- On a well-formed record the featuresByLevel fallback returns a value
in [1, 20]. -/
theorem detect_level_priority3_range (d : PyDict) (h : recordWF d = true) :
    ∃ n, detect_level_priority3 d = Except.ok n ∧ 1 ≤ n ∧ n ≤ 20 := by
  rcases hc : dictLookup d "class" with _ | v
  · exact ⟨1, by simp [detect_level_priority3, dictLookupD, hc, pyGet, dictLookup,
      pyTruthy, Bind.bind, Except.bind, Pure.pure, Except.pure], by norm_num, by norm_num⟩
  · rw [recordWF, hc] at h
    rcases v with _ | _ | _ | _ | _ | _ | cd <;> simp at h
    rcases hf : dictLookup cd "featuresByLevel" with _ | f
    · rw [hf] at h
      exact ⟨1, by simp [detect_level_priority3, dictLookupD, hc, pyGet, hf,
        pyTruthy, Bind.bind, Except.bind, Pure.pure, Except.pure], by norm_num, by norm_num⟩
    · rw [hf] at h
      rcases f with _ | _ | _ | _ | _ | xs | _
      · exact absurd h (by simp)
      · exact absurd h (by simp)
      · exact absurd h (by simp)
      · exact absurd h (by simp)
      · exact absurd h (by simp)
      case dict => exact absurd h (by simp)
      have hall : xs.all isDictB = true := h
      cases xs with
      | nil =>
        exact ⟨1, by simp [detect_level_priority3, dictLookupD, hc, pyGet, hf,
          pyTruthy, Bind.bind, Except.bind, Pure.pure, Except.pure], by norm_num, by norm_num⟩
      | cons x rest =>
        rcases featuresMaxLevel_cases (x :: rest) hall with ⟨n, hn⟩ | he | he
        · exact ⟨clampLevel n, by simp [detect_level_priority3, dictLookupD, hc, pyGet, hf,
            pyTruthy, Bind.bind, Except.bind, Pure.pure, Except.pure, hn],
            clampLevel_one_le n, clampLevel_le_twenty n⟩
        · exact ⟨1, by simp [detect_level_priority3, dictLookupD, hc, pyGet, hf,
            pyTruthy, Bind.bind, Except.bind, Pure.pure, Except.pure, he], by norm_num, by norm_num⟩
        · exact ⟨1, by simp [detect_level_priority3, dictLookupD, hc, pyGet, hf,
            pyTruthy, Bind.bind, Except.bind, Pure.pure, Except.pure, he], by norm_num, by norm_num⟩

/-- On a well-formed record the class-level source returns a value in
[1, 20]. -/
theorem detect_level_priority2_range (d : PyDict) (h : recordWF d = true) :
    ∃ n, detect_level_priority2 d = Except.ok n ∧ 1 ≤ n ∧ n ≤ 20 := by
  rcases hc : dictLookup d "class" with _ | v
  · obtain ⟨n, hn, h1, h2⟩ := detect_level_priority3_range d h
    exact ⟨n, by simp [detect_level_priority2, dictLookupD, hc, pyContains, dictContains,
      dictLookup, Bind.bind, Except.bind, hn], h1, h2⟩
  · have hwf := h
    rw [recordWF, hc] at hwf
    rcases v with _ | _ | _ | _ | _ | _ | cd <;> simp at hwf
    rcases hcl : dictLookup cd "level" with _ | w
    · obtain ⟨n, hn, h1, h2⟩ := detect_level_priority3_range d h
      exact ⟨n, by simp [detect_level_priority2, dictLookupD, hc, pyContains, dictContains,
        hcl, Bind.bind, Except.bind, hn], h1, h2⟩
    · rcases pyInt_cases w with ⟨n, hn⟩ | he | he
      · exact ⟨clampLevel n, by simp [detect_level_priority2, dictLookupD, hc, pyContains,
          dictContains, hcl, pySubscript, hn, Bind.bind, Except.bind, Pure.pure, Except.pure],
          clampLevel_one_le n, clampLevel_le_twenty n⟩
      · obtain ⟨n, hn, h1, h2⟩ := detect_level_priority3_range d h
        exact ⟨n, by simp [detect_level_priority2, dictLookupD, hc, pyContains, dictContains,
          hcl, pySubscript, he, Bind.bind, Except.bind, hn], h1, h2⟩
      · obtain ⟨n, hn, h1, h2⟩ := detect_level_priority3_range d h
        exact ⟨n, by simp [detect_level_priority2, dictLookupD, hc, pyContains, dictContains,
          hcl, pySubscript, he, Bind.bind, Except.bind, hn], h1, h2⟩

/-- C1 counterexample: the claim promises `detect_level` never raises, but
on the record `{'class': 5}` the membership test `'level' in class_data`
raises an uncaught `TypeError`. -/
theorem C1_counterexample :
    detect_level [("class", Value.int 5)] = Except.error PyErr.typeError := rfl

/-- C1 (amended): on records whose `class` field (when present) is a dict
and whose `featuresByLevel` field (when present inside that dict) is a
list of dicts, `detect_level` never raises and returns an integer in
[1, 20]; values outside the range are clamped (25 gives 20, 0 gives 1) and
a record with no parseable source yields the documented default 1. -/
theorem C1_detect_level_range :
    (∀ d : PyDict, recordWF d = true →
      ∃ n, detect_level d = Except.ok n ∧ 1 ≤ n ∧ n ≤ 20)
    ∧ detect_level [("level", Value.int 25)] = Except.ok 20
    ∧ detect_level [("level", Value.int 0)] = Except.ok 1
    ∧ detect_level [] = Except.ok 1 := by
  refine ⟨?_, rfl, rfl, rfl⟩
  intro d h
  rcases hl : dictLookup d "level" with _ | v
  · obtain ⟨n, hn, h1, h2⟩ := detect_level_priority2_range d h
    exact ⟨n, by simp [detect_level, hl, hn], h1, h2⟩
  · rcases hv : pyInt v with e | n
    · obtain ⟨n, hn, h1, h2⟩ := detect_level_priority2_range d h
      exact ⟨n, by simp [detect_level, hl, hv, hn], h1, h2⟩
    · exact ⟨clampLevel n, by simp [detect_level, hl, hv],
        clampLevel_one_le n, clampLevel_le_twenty n⟩

/-- C1 witness: the range clause instantiated at a concrete well-formed
record. -/
theorem C1_witness :
    recordWF [("class", Value.dict [("level", Value.int 30)])] = true
    ∧ ∃ n, detect_level [("class", Value.dict [("level", Value.int 30)])] = Except.ok n
        ∧ 1 ≤ n ∧ n ≤ 20 :=
  ⟨rfl, C1_detect_level_range.1 [("class", Value.dict [("level", Value.int 30)])] rfl⟩

/-- C6: `validate_level_consistency` collects the raw (unclamped) value of
every source that parses, reuses `detect_level` for the canonical value,
sets the agreement flag exactly when there is at most one distinct raw
value, and otherwise lists each source whose raw value differs from the
canonical value with its signed difference (raw minus canonical). The
concrete runs show a disagreeing pair (raw 5 against canonical 3,
difference +2) and a single clamped source (raw 25, canonical 20, still
consistent). -/
theorem C6_validate_level_consistency :
    (∀ (d : PyDict) (r : ConsistencyResult), validate_level_consistency d = Except.ok r →
      detect_level d = Except.ok r.detected_level
      ∧ r.unique_levels = (r.levels_found.map Prod.snd).dedup
      ∧ (r.is_consistent = true ↔ r.unique_levels.length ≤ 1)
      ∧ (r.is_consistent = false →
          r.inconsistencies
            = (r.levels_found.filter (fun p => p.2 ≠ r.detected_level)).map
                (fun p => Inconsistency.mk p.1 p.2 (p.2 - r.detected_level))))
    ∧ validate_level_consistency
        [("level", Value.int 3), ("class", Value.dict [("level", Value.int 5)])]
        = Except.ok (ConsistencyResult.mk
            [("character.level", 3), ("class.level", 5)] [3, 5] 3 false
            [Inconsistency.mk "class.level" 5 2])
    ∧ validate_level_consistency [("level", Value.int 25)]
        = Except.ok (ConsistencyResult.mk [("character.level", 25)] [25] 20 true []) := by
  refine ⟨?_, rfl, rfl⟩
  intro d r h
  rw [validate_level_consistency] at h
  cases hs : consistency_sources d with
  | error e => rw [hs] at h; simp [Bind.bind, Except.bind] at h
  | ok lf =>
    rw [hs] at h
    cases hd : detect_level d with
    | error e => rw [hd] at h; simp [Bind.bind, Except.bind] at h
    | ok dl =>
      rw [hd] at h
      simp only [Bind.bind, Except.bind, Pure.pure, Except.pure, Except.ok.injEq] at h
      subst h
      refine ⟨by simp [hd], rfl, by simp, ?_⟩
      intro hfalse
      simp only [ConsistencyResult.is_consistent] at hfalse
      simp [hfalse]

/-- C6 witness: the general consistency clause instantiated at a concrete
record with disagreeing sources. -/
theorem C6_witness :
    detect_level [("level", Value.int 3), ("class", Value.dict [("level", Value.int 5)])]
      = Except.ok 3
    ∧ ([3, 5] : List Int) = ([("character.level", (3 : Int)), ("class.level", 5)].map Prod.snd).dedup
    ∧ ((false = true) ↔ ([3, 5] : List Int).length ≤ 1)
    ∧ (false = false →
        [Inconsistency.mk "class.level" 5 2]
          = ([("character.level", (3 : Int)), ("class.level", 5)].filter
              (fun p => p.2 ≠ 3)).map (fun p => Inconsistency.mk p.1 p.2 (p.2 - 3))) :=
  C6_validate_level_consistency.1
    [("level", Value.int 3), ("class", Value.dict [("level", Value.int 5)])]
    (ConsistencyResult.mk [("character.level", 3), ("class.level", 5)] [3, 5] 3 false
      [Inconsistency.mk "class.level" 5 2]) rfl

/-- C8: in the validator's level sub-check, a detected-vs-converted
mismatch yields an error-severity invalid result; internally inconsistent
sources with a matching converted level yield a warning-severity result
that still counts as valid; consistent sources with a match yield info.
The three concrete runs exercise one branch each. -/
theorem C8_level_detection_branches :
    (∀ (o c : PyDict) (dl : Int) (vr : ConsistencyResult) (cl : Value)
        (r : ValidationResult),
      detect_level o = Except.ok dl →
      validate_level_consistency o = Except.ok vr →
      converted_class_level c = Except.ok cl →
      validate_level_detection o c = Except.ok r →
      (pyEqInt cl dl = false → r.severity = "error" ∧ r.is_valid = false)
      ∧ (pyEqInt cl dl = true → vr.is_consistent = false →
          r.severity = "warning" ∧ r.is_valid = true)
      ∧ (pyEqInt cl dl = true → vr.is_consistent = true →
          r.severity = "info" ∧ r.is_valid = true))
    ∧ Except.map (fun r => (r.severity, r.is_valid))
        (validate_level_detection originalConsistent convertedMismatching)
        = Except.ok ("error", false)
    ∧ Except.map (fun r => (r.severity, r.is_valid))
        (validate_level_detection originalInconsistent convertedMatching)
        = Except.ok ("warning", true)
    ∧ Except.map (fun r => (r.severity, r.is_valid))
        (validate_level_detection originalConsistent convertedMatching)
        = Except.ok ("info", true) := by
  refine ⟨?_, rfl, rfl, rfl⟩
  intro o c dl vr cl r h1 h2 h3 h4
  rw [validate_level_detection] at h4
  simp only [h1, h2, h3, Bind.bind, Except.bind] at h4
  refine ⟨?_, ?_, ?_⟩
  · intro hcond
    simp [hcond, Pure.pure, Except.pure] at h4
    subst h4
    exact ⟨rfl, rfl⟩
  · intro hcond hcons
    simp [hcond, hcons, Pure.pure, Except.pure] at h4
    subst h4
    exact ⟨rfl, rfl⟩
  · intro hcond hcons
    simp [hcond, hcons, Pure.pure, Except.pure] at h4
    subst h4
    exact ⟨rfl, rfl⟩

/-- C8 witness: the branch clause instantiated at the concrete
inconsistent-but-matching run. -/
theorem C8_witness :
    (pyEqInt (Value.int 3) 3 = false →
      (ValidationResult.mk true "Level sources inconsistent but conversion successful"
        "warning" (some (consistencyToValue (ConsistencyResult.mk
          [("character.level", 3), ("class.level", 5)] [3, 5] 3 false
          [Inconsistency.mk "class.level" 5 2])))).severity = "error"
      ∧ (ValidationResult.mk true "Level sources inconsistent but conversion successful"
        "warning" (some (consistencyToValue (ConsistencyResult.mk
          [("character.level", 3), ("class.level", 5)] [3, 5] 3 false
          [Inconsistency.mk "class.level" 5 2])))).is_valid = false)
    ∧ (pyEqInt (Value.int 3) 3 = true →
        (ConsistencyResult.mk [("character.level", 3), ("class.level", 5)] [3, 5] 3 false
          [Inconsistency.mk "class.level" 5 2]).is_consistent = false →
        (ValidationResult.mk true "Level sources inconsistent but conversion successful"
          "warning" (some (consistencyToValue (ConsistencyResult.mk
            [("character.level", 3), ("class.level", 5)] [3, 5] 3 false
            [Inconsistency.mk "class.level" 5 2])))).severity = "warning"
        ∧ (ValidationResult.mk true "Level sources inconsistent but conversion successful"
          "warning" (some (consistencyToValue (ConsistencyResult.mk
            [("character.level", 3), ("class.level", 5)] [3, 5] 3 false
            [Inconsistency.mk "class.level" 5 2])))).is_valid = true)
    ∧ (pyEqInt (Value.int 3) 3 = true →
        (ConsistencyResult.mk [("character.level", 3), ("class.level", 5)] [3, 5] 3 false
          [Inconsistency.mk "class.level" 5 2]).is_consistent = true →
        (ValidationResult.mk true "Level sources inconsistent but conversion successful"
          "warning" (some (consistencyToValue (ConsistencyResult.mk
            [("character.level", 3), ("class.level", 5)] [3, 5] 3 false
            [Inconsistency.mk "class.level" 5 2])))).severity = "info"
        ∧ (ValidationResult.mk true "Level sources inconsistent but conversion successful"
          "warning" (some (consistencyToValue (ConsistencyResult.mk
            [("character.level", 3), ("class.level", 5)] [3, 5] 3 false
            [Inconsistency.mk "class.level" 5 2])))).is_valid = true) :=
  C8_level_detection_branches.1 originalInconsistent convertedMatching 3
    (ConsistencyResult.mk [("character.level", 3), ("class.level", 5)] [3, 5] 3 false
      [Inconsistency.mk "class.level" 5 2])
    (Value.int 3)
    (ValidationResult.mk true "Level sources inconsistent but conversion successful"
      "warning" (some (consistencyToValue (ConsistencyResult.mk
        [("character.level", 3), ("class.level", 5)] [3, 5] 3 false
        [Inconsistency.mk "class.level" 5 2]))))
    rfl rfl rfl rfl

/-- The integer-pair comparison agrees with the rational form of
`mapping_rate < 0.5` (rate 0 when there are no items). -/
theorem mappingRateLtHalf_iff (m : Nat) (t : Int) :
    mappingRateLtHalf m t = true
      ↔ (if 0 < t then (m : Rat) / (t : Rat) else 0) < 1 / 2 := by
  unfold mappingRateLtHalf
  by_cases ht : 0 < t
  · have htq : (0 : Rat) < (t : Rat) := by exact_mod_cast ht
    simp only [ht, if_true, decide_eq_true_eq]
    rw [div_lt_div_iff₀ htq (by norm_num : (0 : Rat) < 2)]
    constructor
    · intro h
      have : ((2 * (m : Int) : Int) : Rat) < ((t : Int) : Rat) := by exact_mod_cast h
      push_cast at this
      linarith
    · intro h
      have : ((2 * (m : Int) : Int) : Rat) < ((t : Int) : Rat) := by push_cast; linarith
      exact_mod_cast this
  · simp [ht]

/-- C9: an item counts as mapped iff it carries a non-`None` compendium
source or a non-default icon; the check never fails the conversion
(always valid), zero items give rate 0 without raising, a rate below 0.5
is warning-severity, and a rate of at least 0.5 — including exactly
0.5 — is info-severity. -/
theorem C9_compendium_mapping :
    (∀ (cv cp : PyDict) (r : ValidationResult),
      validate_compendium_mappings cv cp = Except.ok r →
      r.is_valid = true ∧ (r.severity = "warning" ∨ r.severity = "info"))
    ∧ (∀ (cv cp : PyDict) (t : Int) (m : Nat) (u : List Value) (r : ValidationResult),
        compendium_mapping_stats cv = Except.ok (t, m, u) →
        validate_compendium_mappings cv cp = Except.ok r →
        (r.severity = "warning"
          ↔ (if 0 < t then (m : Rat) / (t : Rat) else 0) < 1 / 2))
    ∧ has_compendium_source (Value.dict
        [("_stats", Value.dict [("compendiumSource", Value.str "pack.x")])]) = Except.ok true
    ∧ has_compendium_source (Value.dict
        [("img", Value.str "icons/custom.png")]) = Except.ok true
    ∧ has_compendium_source (Value.dict
        [("img", Value.str "icons/svg/mystery-man.svg")]) = Except.ok false
    ∧ has_compendium_source (Value.dict
        [("_stats", Value.dict [("compendiumSource", Value.none)])]) = Except.ok false
    ∧ Except.map (fun r => (r.severity, r.is_valid))
        (validate_compendium_mappings [("items", Value.list [])] [])
        = Except.ok ("warning", true)
    ∧ Except.map (fun r => (r.severity, r.is_valid))
        (validate_compendium_mappings convertedHalfMapped [])
        = Except.ok ("info", true)
    ∧ Except.map (fun r => (r.severity, r.is_valid))
        (validate_compendium_mappings convertedThirdMapped [])
        = Except.ok ("warning", true) := by
  refine ⟨?_, ?_, rfl, rfl, rfl, rfl, rfl, rfl, rfl⟩
  · intro cv cp r h
    rw [validate_compendium_mappings] at h
    cases hs : compendium_mapping_stats cv with
    | error e => rw [hs] at h; simp [Bind.bind, Except.bind] at h
    | ok stats =>
      rw [hs] at h
      simp only [Bind.bind, Except.bind] at h
      by_cases hlt : mappingRateLtHalf stats.2.1 stats.1 = true
      · simp [hlt, Pure.pure, Except.pure] at h
        subst h
        exact ⟨rfl, Or.inl rfl⟩
      · simp [hlt, Pure.pure, Except.pure] at h
        subst h
        exact ⟨rfl, Or.inr rfl⟩
  · intro cv cp t m u r hs h
    rw [validate_compendium_mappings] at h
    rw [hs] at h
    simp only [Bind.bind, Except.bind] at h
    by_cases hlt : mappingRateLtHalf m t = true
    · simp [hlt, Pure.pure, Except.pure] at h
      subst h
      simpa using (mappingRateLtHalf_iff m t).mp hlt
    · simp [hlt, Pure.pure, Except.pure] at h
      subst h
      constructor
      · intro hcontra
        exact absurd hcontra (by simp)
      · intro hrate
        exact absurd ((mappingRateLtHalf_iff m t).mpr hrate) hlt

/-- C9 witness: the always-valid clause instantiated at the empty-items
record (rate 0, warning severity, still valid). -/
theorem C9_witness :
    (ValidationResult.mk true "Low compendium mapping rate: 0.0%" "warning"
      (some (Value.dict
        [("mapping_rate", Value.float 0), ("mapped_items", Value.int 0),
         ("total_items", Value.int 0),
         ("unmapped_items", Value.list [])]))).is_valid = true
    ∧ ((ValidationResult.mk true "Low compendium mapping rate: 0.0%" "warning"
        (some (Value.dict
          [("mapping_rate", Value.float 0), ("mapped_items", Value.int 0),
           ("total_items", Value.int 0),
           ("unmapped_items", Value.list [])]))).severity = "warning"
      ∨ (ValidationResult.mk true "Low compendium mapping rate: 0.0%" "warning"
        (some (Value.dict
          [("mapping_rate", Value.float 0), ("mapped_items", Value.int 0),
           ("total_items", Value.int 0),
           ("unmapped_items", Value.list [])]))).severity = "info") :=
  C9_compendium_mapping.1 [("items", Value.list [])] []
    (ValidationResult.mk true "Low compendium mapping rate: 0.0%" "warning"
      (some (Value.dict
        [("mapping_rate", Value.float 0), ("mapped_items", Value.int 0),
         ("total_items", Value.int 0),
         ("unmapped_items", Value.list [])]))) rfl

/-- The catalog-mapping check always reports the item as valid: both of
its return points carry `is_valid=True` (its failure mode is severity
only), so the `items_with_warnings += 1` branch of the caller is
unreachable. -/
theorem compendium_mapping_always_valid (cv cp : PyDict) (r : ValidationResult)
    (h : validate_compendium_mappings cv cp = Except.ok r) : r.is_valid = true := by
  rw [validate_compendium_mappings] at h
  cases hs : compendium_mapping_stats cv with
  | error e => rw [hs] at h; simp [Bind.bind, Except.bind] at h
  | ok stats =>
    rw [hs] at h
    simp only [Bind.bind, Except.bind] at h
    by_cases hlt : mappingRateLtHalf stats.2.1 stats.1 = true
    · simp [hlt, Pure.pure, Except.pure] at h
      subst h
      rfl
    · simp [hlt, Pure.pure, Except.pure] at h
      subst h
      rfl

/-- C4 counterexample: a run in which the level sub-check and the
catalog-mapping sub-check both produce warning-severity results, yet the
final findings sequence is empty and `items_with_warnings` is 0 — the two
sub-checks return their Findings without appending them, so their
warnings are not counted. -/
theorem C4_counterexample :
    validate_character_conversion trivialCollaborators 0 [] originalInconsistent
        convertedMatching []
      = Except.ok (QualityMetrics.mk 6 5 0 0 0 [], [])
    ∧ Except.map (fun r => r.severity)
        (validate_level_detection originalInconsistent convertedMatching)
        = Except.ok "warning"
    ∧ Except.map (fun r => r.severity)
        (validate_compendium_mappings convertedMatching [])
        = Except.ok "warning" :=
  ⟨rfl, rfl, rfl⟩

/-- C4 (amended): after all sub-checks, `items_with_warnings` equals the
count of warning-severity Findings in the run's accumulated sequence (plus
a one for an invalid catalog-mapping result, which cannot occur); however
only the structural, ability-conversion, and description-transfer
sub-checks append their Findings — the level-detection, text-encoding and
catalog-mapping results are returned without being appended, so warnings
they carry are never counted. -/
theorem C4_items_with_warnings :
    ∀ (c : Collaborators) (pt : Rat) (r0 : List ValidationResult) (o cv cp : PyDict)
      (m : QualityMetrics) (rs : List ValidationResult),
      validate_character_conversion c pt r0 o cv cp = Except.ok (m, rs) →
      m.items_with_warnings = countWarnings rs ∧ m.issues_found = rs := by
  intro c pt r0 o cv cp m rs h
  rw [validate_character_conversion] at h
  cases h1 : validate_basic_structure o cv r0 with
  | error e => rw [h1] at h; simp [Bind.bind, Except.bind] at h
  | ok results1 =>
    rw [h1] at h
    simp only [Bind.bind, Except.bind] at h
    cases h2 : validate_level_detection o cv with
    | error e => rw [h2] at h; simp [Bind.bind, Except.bind] at h
    | ok level_validation =>
      rw [h2] at h
      simp only [Bind.bind, Except.bind] at h
      cases h3 : validate_ability_conversion c o cv cp results1 with
      | error e => rw [h3] at h; simp [Bind.bind, Except.bind] at h
      | ok abilityOut =>
        rw [h3] at h
        simp only [Bind.bind, Except.bind] at h
        cases h4 : validate_description_transfers c o cv abilityOut.2 with
        | error e => rw [h4] at h; simp [Bind.bind, Except.bind] at h
        | ok descOut =>
          rw [h4] at h
          simp only [Bind.bind, Except.bind] at h
          cases h5 : validate_text_encoding c cv with
          | error e => rw [h5] at h; simp [Bind.bind, Except.bind] at h
          | ok encoding_validation =>
            rw [h5] at h
            simp only [Bind.bind, Except.bind] at h
            cases h6 : validate_compendium_mappings cv cp with
            | error e => rw [h6] at h; simp [Bind.bind, Except.bind] at h
            | ok mapping_validation =>
              rw [h6] at h
              simp only [Bind.bind, Except.bind, Pure.pure, Except.pure,
                Except.ok.injEq, Prod.mk.injEq] at h
              obtain ⟨hm, hrs⟩ := h
              subst hm
              subst hrs
              refine ⟨?_, rfl⟩
              simp [compendium_mapping_always_valid cv cp mapping_validation h6]

/-- C4 witness: the warning-count equation instantiated at the concrete
counterexample run. -/
theorem C4_witness :
    (QualityMetrics.mk 6 5 0 0 0 ([] : List ValidationResult)).items_with_warnings
      = countWarnings []
    ∧ (QualityMetrics.mk 6 5 0 0 0 ([] : List ValidationResult)).issues_found = [] :=
  C4_items_with_warnings trivialCollaborators 0 [] originalInconsistent convertedMatching
    [] (QualityMetrics.mk 6 5 0 0 0 []) [] rfl

/-- The integer-pair comparison of the report's verdict agrees with the
rational form of `failure_rate < 0.1` for a positive total. -/
theorem failureRateLtTenth_iff (f t : Nat) (ht : 0 < t) :
    (f : Rat) / (t : Rat) < 1 / 10 ↔ 10 * f < t := by
  have htq : (0 : Rat) < (t : Rat) := by exact_mod_cast ht
  rw [div_lt_div_iff₀ htq (by norm_num : (0 : Rat) < 10), one_mul]
  constructor
  · intro h
    have h2 : ((f * 10 : Nat) : Rat) < ((t : Nat) : Rat) := by push_cast; linarith
    have h3 : f * 10 < t := by exact_mod_cast h2
    omega
  · intro h
    have h2 : f * 10 < t := by omega
    have h3 : ((f * 10 : Nat) : Rat) < ((t : Nat) : Rat) := by exact_mod_cast h2
    push_cast at h3
    linarith

/-- When the assessment branch chooses a verdict, the report renders and
that verdict is its last line. -/
theorem report_last_line (m : QualityMetrics) (v : String)
    (h : overall_assessment_line m = Except.ok v) :
    ∃ ls, generate_quality_report_lines m = Except.ok ls ∧ ls.getLast? = some v := by
  rw [generate_quality_report_lines]
  rw [h]
  simp only [Bind.bind, Except.bind]
  exact ⟨_, rfl, List.getLast?_concat _⟩

/-- C5: the report computes the success rate as successful/total with a
zero total giving rate 0 (rendered "0.0%") rather than a division error,
and picks the verdict by fixed thresholds — no failures and no warnings
is "Excellent", no failures with warnings is "Good", a failure rate below
0.1 is "Fair", and a failure rate of at least 0.1 is "Poor". -/
theorem C5_quality_report :
    (∀ m : QualityMetrics, m.total_items = 0 → report_success_rate m = 0)
    ∧ (∀ m : QualityMetrics, 0 < m.total_items →
        report_success_rate m = (m.successful_conversions : Rat) / (m.total_items : Rat))
    ∧ (∀ m : QualityMetrics, m.total_items = 0 → m.failed_conversions = 0 →
        ∃ ls, generate_quality_report_lines m = Except.ok ls
          ∧ "Overall success rate: 0.0%" ∈ ls)
    ∧ (∀ m : QualityMetrics, m.failed_conversions = 0 → m.items_with_warnings = 0 →
        ∃ ls, generate_quality_report_lines m = Except.ok ls
          ∧ ls.getLast? = some "✅ Excellent: All conversions successful with no warnings")
    ∧ (∀ m : QualityMetrics, m.failed_conversions = 0 → m.items_with_warnings ≠ 0 →
        ∃ ls, generate_quality_report_lines m = Except.ok ls
          ∧ ls.getLast? = some "✅ Good: All conversions successful with some warnings")
    ∧ (∀ m : QualityMetrics, m.failed_conversions ≠ 0 → 0 < m.total_items →
        (m.failed_conversions : Rat) / (m.total_items : Rat) < 1 / 10 →
        ∃ ls, generate_quality_report_lines m = Except.ok ls
          ∧ ls.getLast? = some "⚠️ Fair: Most conversions successful, some issues detected")
    ∧ (∀ m : QualityMetrics, m.failed_conversions ≠ 0 → 0 < m.total_items →
        ¬((m.failed_conversions : Rat) / (m.total_items : Rat) < 1 / 10) →
        ∃ ls, generate_quality_report_lines m = Except.ok ls
          ∧ ls.getLast? = some "❌ Poor: Significant conversion issues detected") := by
  refine ⟨?_, ?_, ?_, ?_, ?_, ?_, ?_⟩
  · intro m h
    simp [report_success_rate, h]
  · intro m h
    simp [report_success_rate, h]
  · intro m h1 h2
    have hassess : overall_assessment_line m = Except.ok
        (if m.items_with_warnings = 0 then
          "✅ Excellent: All conversions successful with no warnings"
        else "✅ Good: All conversions successful with some warnings") := by
      rw [overall_assessment_line]
      simp [h2]
      by_cases hw : m.items_with_warnings = 0 <;> simp [hw, Pure.pure, Except.pure]
    rw [generate_quality_report_lines, hassess]
    simp only [Bind.bind, Except.bind]
    refine ⟨_, rfl, ?_⟩
    have hrate : "Overall success rate: " ++ formatPercent (report_success_rate m)
        = "Overall success rate: 0.0%" := by
      rw [report_success_rate]
      simp only [h1, gt_iff_lt, lt_self_iff_false, if_false]
      rfl
    rw [← hrate]
    simp
  · intro m h1 h2
    refine report_last_line m _ ?_
    rw [overall_assessment_line]
    simp [h1, h2, Pure.pure, Except.pure]
  · intro m h1 h2
    refine report_last_line m _ ?_
    rw [overall_assessment_line]
    simp [h1, h2, Pure.pure, Except.pure]
  · intro m h1 h2 h3
    have hlt : 10 * m.failed_conversions < m.total_items :=
      (failureRateLtTenth_iff m.failed_conversions m.total_items h2).mp h3
    have ht0 : ¬m.total_items = 0 := by omega
    refine report_last_line m _ ?_
    rw [overall_assessment_line]
    simp [h1, hlt, ht0, Pure.pure, Except.pure]
  · intro m h1 h2 h3
    have hlt : ¬10 * m.failed_conversions < m.total_items := fun hc =>
      h3 ((failureRateLtTenth_iff m.failed_conversions m.total_items h2).mpr hc)
    have ht0 : ¬m.total_items = 0 := by omega
    refine report_last_line m _ ?_
    rw [overall_assessment_line]
    simp [h1, hlt, ht0, Pure.pure, Except.pure]

/-- C5 witness: the threshold clauses instantiated at a concrete failing
run (5 failures out of 10, rate 0.5, verdict "Poor"). -/
theorem C5_witness :
    ∃ ls, generate_quality_report_lines (QualityMetrics.mk 10 5 5 0 0 []) = Except.ok ls
      ∧ ls.getLast? = some "❌ Poor: Significant conversion issues detected" :=
  C5_quality_report.2.2.2.2.2.2 (QualityMetrics.mk 10 5 5 0 0 [])
    (by norm_num) (by norm_num) (by norm_num)
